import Mathlib

/-!
Verification of the NetHunter (ZoomEye Edition) device-search pipeline
(`src/app.py`) against its natural-language specification.

The Python source is shallowly embedded: each relevant Python function
(`parse_zoomeye_data`, `classify_device`, `port_color`, the sidebar filter
block, the CSV export, and the submitted-search control flow) becomes a Lean
definition operating on explicit data.  Python-specific behaviour that the
claims depend on is modelled explicitly:

* a JSON/dict field is `absent`, `null` (Python `None`) or a value
  (`Field` below); `dict.get(k, d)` returns the default only when the key
  is absent, and calling `.get` on `None` raises `AttributeError`;
* `str(x)` coercion and string truthiness/`strip()`/`int()` are modelled on
  a small dynamic-value type `PyObj` and ASCII strings (the app's keyword
  and port matching is ASCII-only);
* pandas cells that hold Python `None` are modelled as `Option` values and
  serialize to the empty CSV cell, matching `DataFrame.to_csv`.
-/

namespace NetHunter

/-- `True` for the ASCII whitespace characters Python's `str.strip()` and
`int()` remove (space, tab, newline, carriage return, vertical tab, form
feed).  The app only ever feeds ASCII filter text through these paths. -/
def isPySpace (c : Char) : Bool :=
  c == ' ' || c == '\t' || c == '\n' || c == '\r' || c.toNat == 11 || c.toNat == 12

/-- Python `str.strip()`: drop leading and trailing whitespace. -/
def pyStrip (s : String) : String :=
  String.mk (((s.toList.dropWhile isPySpace).reverse.dropWhile isPySpace).reverse)

/-- `s.lower()` (ASCII, as used by the classifier's keyword matching). -/
def lowerStr (s : String) : String := String.mk (s.toList.map Char.toLower)

/-- `s.upper()` (ASCII, as used by the country filter). -/
def upperStr (s : String) : String := String.mk (s.toList.map Char.toUpper)

/-- `pat` is a prefix of `l` (character-wise). -/
def isPre : List Char → List Char → Bool
  | [], _ => true
  | _ :: _, [] => false
  | a :: as, b :: bs => a == b && isPre as bs

/-- `pat` occurs as a contiguous sublist of the second argument. -/
def hasSubL (pat : List Char) : List Char → Bool
  | [] => pat.isEmpty
  | b :: bs => isPre pat (b :: bs) || hasSubL pat bs

/-- Python `pat in hay` on strings: contiguous-substring test. -/
def hasSub (hay pat : String) : Bool := hasSubL pat.toList hay.toList

/-- A dynamically typed Python value, as far as the classifier needs one:
`None`, a string, or an integer. -/
inductive PyObj : Type where
  | pnull : PyObj
  | pstr : String → PyObj
  | pint : Int → PyObj
deriving DecidableEq

/-- Python `str(x)`: `str(None) = "None"`, strings unchanged, integers
printed in decimal. -/
def pyToStr : PyObj → String
  | .pnull => "None"
  | .pstr s => s
  | .pint n => toString n

/-- Python `x in [n1, n2, ...]` for an integer list: `None` and strings are
never equal to an `int`, so only an `int` value can be a member. -/
def pyMemInt (p : PyObj) (l : List Int) : Bool :=
  match p with
  | .pint n => l.contains n
  | _ => false

/-- The three columns `classify_device` reads from a DataFrame row
(`row['product']`, `row['port']`, `row['data']`), kept dynamically typed
exactly because the source coerces with `str(...)` before matching. -/
structure PyRow : Type where
  product : PyObj
  port : PyObj
  data : PyObj
deriving DecidableEq

/-- `classify_device` from `src/app.py` (lines 71-94): lower-case the
stringified product and banner, then walk the if/elif chain; the first
matching branch returns its Spanish category label. -/
def classify_device (row : PyRow) : String :=
  let product := lowerStr (pyToStr row.product)
  let port := row.port
  let banner := lowerStr (pyToStr row.data)
  if hasSub product "camera" || hasSub product "hikvision" || hasSub product "dahua"
      || pyMemInt port [554, 8000, 8080] then "Cámara IP"
  else if (["nginx", "apache", "iis"].any fun x => hasSub product x)
      || pyMemInt port [80, 443, 8080] then "Servidor Web"
  else if (["mysql", "mariadb", "postgres", "mongodb"].any fun x => hasSub product x)
      || pyMemInt port [3306, 5432, 27017] then "Base de Datos"
  else if pyMemInt port [22, 2222] then "Servidor/Ordenador (SSH)"
  else if pyMemInt port [23] then "Dispositivo de red (Telnet)"
  else if (["iot", "smart", "home", "device"].any fun x => hasSub banner x) then "IoT"
  else "Desconocido"

/-- The closed category taxonomy of spec §3, precedence-ordered. -/
inductive DeviceCategory : Type where
  | IPCamera | WebServer | Database | SSHHost | TelnetDevice | IoT | Unknown
deriving DecidableEq

/-- The Spanish display label the source uses for each spec category. -/
def categoryLabel : DeviceCategory → String
  | .IPCamera => "Cámara IP"
  | .WebServer => "Servidor Web"
  | .Database => "Base de Datos"
  | .SSHHost => "Servidor/Ordenador (SSH)"
  | .TelnetDevice => "Dispositivo de red (Telnet)"
  | .IoT => "IoT"
  | .Unknown => "Desconocido"

/-- Modelled from the spec, §4.2: the condition of each numbered
classification rule, written from the spec's words (case-insensitive
substring matches against the lower-cased product / banner text, plus the
listed port sets).  Used only to compare the source classifier against the
spec's ordered rule list. -/
def ruleMatches (c : DeviceCategory) (row : PyRow) : Bool :=
  let product := lowerStr (pyToStr row.product)
  let banner := lowerStr (pyToStr row.data)
  match c with
  | .IPCamera => hasSub product "camera" || hasSub product "hikvision"
      || hasSub product "dahua" || pyMemInt row.port [554, 8000, 8080]
  | .WebServer => (["nginx", "apache", "iis"].any fun x => hasSub product x)
      || pyMemInt row.port [80, 443, 8080]
  | .Database => (["mysql", "mariadb", "postgres", "mongodb"].any fun x => hasSub product x)
      || pyMemInt row.port [3306, 5432, 27017]
  | .SSHHost => pyMemInt row.port [22, 2222]
  | .TelnetDevice => pyMemInt row.port [23]
  | .IoT => (["iot", "smart", "home", "device"].any fun x => hasSub banner x)
  | .Unknown => true

/-- Modelled from the spec, §4.2: the seven rules in their stated precedence
order. -/
def specRules : List DeviceCategory :=
  [.IPCamera, .WebServer, .Database, .SSHHost, .TelnetDevice, .IoT, .Unknown]

/-- Modelled from the spec, §4.2: evaluate the ordered rule list, first
match wins (`Unknown`'s condition is `true`, so a match always exists). -/
def specClassify (row : PyRow) : DeviceCategory :=
  (specRules.find? fun c => ruleMatches c row).getD .Unknown

/-- One key of a JSON object as Python sees it: the key may be absent from
the dict, present with value `None` (JSON `null`), or present with a value.
`dict.get(k, d)` returns `d` only in the `absent` case. -/
inductive Field (α : Type) : Type where
  | absent : Field α
  | null : Field α
  | val : α → Field α
deriving DecidableEq

/-- `dict.get(k, d)` followed by use as a plain value: `absent` gives the
default, `null` gives Python `None` (modelled `none`), a value gives itself. -/
def getOr {α : Type} : Field α → α → Option α
  | .absent, d => some d
  | .null, _ => none
  | .val a, _ => some a

/-- The `names` object inside `geoinfo.country` / `geoinfo.city`. -/
structure NamesObj : Type where
  en : Field String
deriving DecidableEq

/-- The `country` / `city` object inside `geoinfo`. -/
structure PlaceObj : Type where
  names : Field NamesObj
deriving DecidableEq

/-- The `geoinfo` object of a raw match.  Latitude and longitude are passed
through the pipeline untouched, so their numeric payload is modelled by an
opaque integer carrier. -/
structure GeoObj : Type where
  country : Field PlaceObj
  city : Field PlaceObj
  latitude : Field Int
  longitude : Field Int
deriving DecidableEq

/-- One raw match object from the API response (spec §3 RawRecord): every
key independently absent, null, or valued. -/
structure RawRecord : Type where
  ip : Field String
  port : Field Int
  protocol : Field String
  geoinfo : Field GeoObj
  data : Field String
  product : Field String
  version : Field String
deriving DecidableEq

/-- One normalized row of the parsed DataFrame.  A field holds `none`
exactly when the Python cell holds `None` (which happens when the raw key
was present but `null`); `product` is always a string because it is built
by an f-string. -/
structure DeviceRow : Type where
  ip_str : Option String
  port : Option Int
  transport : Option String
  country : Option String
  city : Option String
  lat : Option Int
  lon : Option Int
  product : String
  data : Option String
deriving DecidableEq

/-- The message carried by the exception a null `geoinfo` chain raises
(`None.get(...)` in Python is an `AttributeError`). -/
def attrErr : String := "AttributeError: NoneType object has no attribute get"

/-- `names = place.get('names', {})` then `names.get('en', 'N/A')` on one of
`geoinfo`'s place objects: a `null` link raises, an absent link falls
through empty dicts to the `'N/A'` default, and a `null` leaf `en` yields
Python `None`. -/
def placeName : Field PlaceObj → Except String (Option String)
  | .null => .error attrErr
  | .absent => .ok (some "N/A")
  | .val pl =>
    match pl.names with
    | .null => .error attrErr
    | .absent => .ok (some "N/A")
    | .val ns => .ok (getOr ns.en "N/A")

/-- `geoinfo.get('latitude'/'longitude', None)` given the fetched
`geoinfo`: absent geoinfo is the empty dict, whose `get` yields `None`. -/
def geoCoordOf (geo : GeoObj) (sel : GeoObj → Field Int) : Option Int :=
  match sel geo with
  | .absent => none
  | .null => none
  | .val v => some v

/-- The four values read off `geoinfo = item.get('geoinfo', {})`, in source
order (country, city, latitude, longitude).  A `null` geoinfo, country or
city raises `AttributeError` exactly as `None.get(...)` does in the
source. -/
def geoFields : Field GeoObj →
    Except String (Option String × Option String × Option Int × Option Int)
  | .null => .error attrErr
  | .absent => .ok (some "N/A", some "N/A", none, none)
  | .val geo =>
    match placeName geo.country with
    | .error e => .error e
    | .ok country =>
      match placeName geo.city with
      | .error e => .error e
      | .ok city =>
        .ok (country, city, geoCoordOf geo GeoObj.latitude, geoCoordOf geo GeoObj.longitude)

/-- The value an f-string interpolation prints for an optional string
(`f"{x}"` prints `None` as the text `None`). -/
def pyFStr : Option String → String
  | none => "None"
  | some s => s

/-- The body of `parse_zoomeye_data`'s per-match loop: build one normalized
row, with `AttributeError` escaping when the geoinfo chain hits a null. -/
def normalize (item : RawRecord) : Except String DeviceRow :=
  match geoFields item.geoinfo with
  | .error e => .error e
  | .ok gf =>
    let product0 := pyStrip (pyFStr (getOr item.product "") ++ " " ++ pyFStr (getOr item.version ""))
    .ok
      { ip_str := getOr item.ip "N/A"
        port := getOr item.port 0
        transport := getOr item.protocol "N/A"
        country := gf.1
        city := gf.2.1
        lat := gf.2.2.1
        lon := gf.2.2.2
        product := if product0 ≠ "" then product0 else "N/A"
        data := getOr item.data "N/A" }

/-- A successful JSON response body: its `matches` key plus a flag for
whether the object carries any other keys (which decides the Python
truthiness of the whole dict at `if api_data:`). -/
structure ApiData : Type where
  matchesKey : Field (List RawRecord)
  otherKeys : Bool
deriving DecidableEq

/-- `parse_zoomeye_data` (lines 38-69): `matches = data.get('matches', [])`;
a falsy `matches` (absent key, null value, or the empty list) produces the
empty DataFrame, otherwise each match is normalized in order (an
`AttributeError` inside the loop escapes, aborting the script run). -/
def parse_zoomeye_data (data : ApiData) : Except String (List DeviceRow) :=
  match (match data.matchesKey with
         | .absent => some []
         | .null => none
         | .val l => some l) with
  | none => .ok []
  | some [] => .ok []
  | some (i :: is) => (i :: is).mapM normalize

/-- A DataFrame row after `results_df['device_type'] = ...`: the normalized
columns plus the computed category label.  (The `color` column is a pure
function of this row via `port_color` and is recomputed where needed.) -/
structure ClassifiedRow : Type where
  base : DeviceRow
  device_type : String
deriving DecidableEq

/-- The three cells `classify_device` reads from a parsed DataFrame row,
as the dynamic Python values pandas hands to `df.apply`. -/
def toPyRow (r : DeviceRow) : PyRow :=
  { product := .pstr r.product
    port := match r.port with
      | some n => .pint n
      | none => .pnull
    data := match r.data with
      | some s => .pstr s
      | none => .pnull }

/-- `port_color` (lines 96-109): the color column is computed from the
row's `device_type` cell alone, via an if/elif chain with a catch-all
else branch. -/
def port_color (row : ClassifiedRow) : List Int :=
  let dtype := row.device_type
  if dtype == "Cámara IP" then [255, 0, 0, 160]
  else if dtype == "Servidor Web" then [0, 0, 255, 160]
  else if dtype == "Base de Datos" then [255, 165, 0, 160]
  else if dtype == "Servidor/Ordenador (SSH)" then [0, 200, 0, 160]
  else if dtype == "IoT" then [128, 0, 128, 160]
  else [200, 30, 0, 160]

/-- `[0-9]` digit groups with single interior underscores, as Python 3's
`int()` accepts after the optional sign; accumulates the decimal value. -/
def digitsToNatAux : List Char → Nat → Option Nat
  | [], acc => some acc
  | '_' :: c :: rest, acc =>
    if c.isDigit then digitsToNatAux rest (acc * 10 + (c.toNat - 48)) else none
  | ['_'], _ => none
  | c :: rest, acc =>
    if c.isDigit then digitsToNatAux rest (acc * 10 + (c.toNat - 48)) else none

/-- The digit part of a Python integer literal: nonempty, starts with a
digit, underscores only between digits. -/
def digitsToNat : List Char → Option Nat
  | [] => none
  | c :: rest => if c.isDigit then digitsToNatAux rest (c.toNat - 48) else none

/-- Python `int(s)` on a decimal string: strip whitespace, optional sign,
then digits (with Python 3's interior underscores); anything else raises
`ValueError`, modelled as `none`. -/
def pyInt (s : String) : Option Int :=
  match (pyStrip s).toList with
  | '+' :: rest => (digitsToNat rest).map fun n => (n : Int)
  | '-' :: rest => (digitsToNat rest).map fun n => -(n : Int)
  | rest => (digitsToNat rest).map fun n => (n : Int)

/-- Python `s.split(',')` at the character level (`"" → [""]`, adjacent
commas produce empty pieces). -/
def splitCommaL : List Char → List (List Char)
  | [] => [[]]
  | c :: rest =>
    match splitCommaL rest with
    | [] => [[c]]
    | g :: gs => if c == ',' then [] :: g :: gs else (c :: g) :: gs

/-- Python `port_filter.split(',')`. -/
def splitComma (s : String) : List String :=
  (splitCommaL s.toList).map String.mk

/-- `[int(p.strip()) for p in port_filter.split(',')]`: every
comma-separated piece must parse, a single `ValueError` aborts the whole
comprehension (`none`). -/
def parsePortList (s : String) : Option (List Int) :=
  (splitComma s).mapM fun p => pyInt (pyStrip p)

/-- The four sidebar filter text inputs (each `""` when left empty, which
is exactly Python falsiness for the `if <filter>:` guards). -/
structure FilterInput : Type where
  country_filter : String
  port_filter : String
  device_text_filter : String
  device_type_filter : String
deriving DecidableEq

/-- Country criterion (line 156):
`results_df['country'].str.upper() == country_filter.upper()`; a `None`
country cell upper-cases to NaN, which compares unequal. -/
def countryMatch (cf : String) (r : ClassifiedRow) : Bool :=
  match r.base.country with
  | some c => upperStr c == upperStr cf
  | none => false

/-- Port criterion (line 160): `results_df['port'].isin(ports)`; a `None`
port cell is never a member. -/
def portMatch (ports : List Int) (r : ClassifiedRow) : Bool :=
  match r.base.port with
  | some p => ports.contains p
  | none => false

/-- Product-text criterion (line 164):
`results_df['product'].str.contains(text, case=False, na=False)` — pandas
compiles the filter text as a regular expression (default `regex=True`)
with `re.IGNORECASE` and searches it anywhere in each product cell
(`na=False` is vacuous here because `product` is always a string).  The
compiled pattern's behaviour is the `pred` argument: the filter engine
below is parameterized over the compile step, so its theorems hold for
Python's real `re` engine. -/
def textMatch (pred : String → Bool) (r : ClassifiedRow) : Bool :=
  pred r.base.product

/-- Category criterion (line 167): exact `device_type` equality. -/
def typeMatch (t : String) (r : ClassifiedRow) : Bool :=
  r.device_type == t

/-- The behaviour of `re.compile(pattern, re.IGNORECASE)` as the product
filter uses it: compilation either raises `re.error` (an invalid pattern —
the exception escapes `str.contains` uncaught) or yields a
search-anywhere predicate on strings.  Kept as an explicit parameter of
the filter block and orchestrator. -/
abbrev ReCompile : Type := String → Except String (String → Bool)

/-- Under `re.IGNORECASE`, does one pattern character of the
literals-and-dot fragment match one text character?  `.` matches any
character except a newline; a literal matches case-insensitively. -/
def dotCharMatch (p c : Char) : Bool :=
  if p == '.' then !(c == '\n') else p.toLower == c.toLower

/-- The literals-and-dot pattern matches a prefix of the text. -/
def dotIsPre : List Char → List Char → Bool
  | [], _ => true
  | _ :: _, [] => false
  | p :: ps, c :: cs => dotCharMatch p c && dotIsPre ps cs

/-- `re.search` for the literals-and-dot fragment: the pattern matches at
some position of the text. -/
def dotSearch (pat : List Char) : List Char → Bool
  | [] => pat.isEmpty
  | c :: cs => dotIsPre pat (c :: cs) || dotSearch pat cs

/-- The `re.error` message an unmatched `(` raises. -/
def reErr : String := "re.error: missing ), unterminated subpattern"

/-- A concrete `ReCompile` agreeing with Python's `re` on the fragment the
closed statements below use (checked against `re` by hand there): a
pattern containing `(` raises `re.error` (unmatched parenthesis), and a
pattern of plain literals and `.` compiles to the case-insensitive
search-anywhere matcher of that fragment.  Only closed counterexamples and
witnesses instantiate the engine with it; every quantified theorem below
holds for all engines, the real `re` included. -/
def pyReModel : ReCompile := fun pat =>
  if hasSub pat "(" then .error reErr
  else .ok fun s => dotSearch pat.toList s.toList

/-- The filter block (lines 155-167), in source order: country, then ports
(whose parse failure warns and skips that one filter), then product text
(whose pattern is compiled by `reC`; a compile failure is an uncaught
exception aborting the rest of the block), then device type (the source's
inner `!= ""` retest is subsumed by the outer truthiness guard).  Returns
the surviving rows — or the escaping `re.error` — and whether the
invalid-ports warning fired (the warning is displayed before the text
stage runs, so it is reported even when that stage raises). -/
def applyFilters (reC : ReCompile) (fi : FilterInput) (rows0 : List ClassifiedRow) :
    Except String (List ClassifiedRow) × Bool :=
  let rows1 := if fi.country_filter ≠ "" then rows0.filter (countryMatch fi.country_filter) else rows0
  let step2 :=
    if fi.port_filter ≠ "" then
      match parsePortList fi.port_filter with
      | some ports => (rows1.filter (portMatch ports), false)
      | none => (rows1, true)
    else (rows1, false)
  let res3 : Except String (List ClassifiedRow) :=
    if fi.device_text_filter ≠ "" then
      match reC fi.device_text_filter with
      | .error e => .error e
      | .ok pred => .ok (step2.1.filter (textMatch pred))
    else .ok step2.1
  (match res3 with
   | .error e => .error e
   | .ok rows3 =>
     .ok (if fi.device_type_filter ≠ "" then rows3.filter (typeMatch fi.device_type_filter) else rows3),
   step2.2)

/-- Modelled from the spec, §4.4: the conjunction of all active filter
criteria as one predicate (an inactive criterion, or a port criterion
whose text failed to parse, contributes `true`; the text criterion is the
compiled pattern's verdict, only consulted when compilation succeeded). -/
def combinedPred (reC : ReCompile) (fi : FilterInput) (r : ClassifiedRow) : Bool :=
  (fi.country_filter == "" || countryMatch fi.country_filter r)
  && (fi.port_filter == ""
      || (match parsePortList fi.port_filter with
          | some ports => portMatch ports r
          | none => true))
  && (fi.device_text_filter == ""
      || (match reC fi.device_text_filter with
          | .ok pred => textMatch pred r
          | .error _ => true))
  && (fi.device_type_filter == "" || typeMatch fi.device_type_filter r)

/-- Whether the invalid-ports warning fires for this filter input. -/
def portWarn (fi : FilterInput) : Bool :=
  if fi.port_filter ≠ "" then
    match parsePortList fi.port_filter with
    | some _ => false
    | none => true
  else false

/-- The rows of a non-raising filter outcome (the empty list when the
block raised; used only where the block provably does not raise). -/
def okRows : Except String (List ClassifiedRow) → List ClassifiedRow
  | .ok l => l
  | .error _ => []

/-- How `DataFrame.to_csv` prints an optional string cell: Python `None`
(pandas NaN) becomes the empty cell. -/
def optCell : Option String → String
  | none => ""
  | some s => s

/-- How `to_csv` prints an optional integer cell (`None` → empty). -/
def optIntCell : Option Int → String
  | none => ""
  | some n => toString n

/-- How `to_csv` prints the `color` cell, which holds a Python list:
`str([255, 0, 0, 160])`. -/
def colorCell (c : List Int) : String :=
  "[" ++ String.intercalate ", " (c.map toString) ++ "]"

/-- The header line `to_csv` writes for `results_df`: the DataFrame's
columns in insertion order — note `data` (the banner) and `color` are
among them, because line 180 exports the full frame (only the table view
of line 177 drops them). -/
def csvHeader : List String :=
  ["ip_str", "port", "transport", "country", "city", "lat", "lon",
   "product", "data", "device_type", "color"]

/-- The raw (pre-quoting) cell values of one exported row, in column
order. -/
def rowCells (r : ClassifiedRow) : List String :=
  [optCell r.base.ip_str, optIntCell r.base.port, optCell r.base.transport,
   optCell r.base.country, optCell r.base.city, optIntCell r.base.lat,
   optIntCell r.base.lon, r.base.product, optCell r.base.data,
   r.device_type, colorCell (port_color r)]

/-- csv QUOTE_MINIMAL: a field is quoted iff it contains the delimiter, the
quote character, or a line-break character. -/
def needsQuote (s : List Char) : Bool :=
  s.any fun c => c == ',' || c == '"' || c == '\n' || c == '\r'

/-- Double every quote character of a quoted field's body. -/
def escBody : List Char → List Char
  | [] => []
  | c :: rest => if c == '"' then '"' :: '"' :: escBody rest else c :: escBody rest

/-- Serialize one field with minimal quoting. -/
def escField (s : List Char) : List Char :=
  if needsQuote s then '"' :: (escBody s ++ ['"']) else s

/-- Serialize one record: fields joined by commas. -/
def serRec : List (List Char) → List Char
  | [] => []
  | [c] => escField c
  | c :: rest => escField c ++ ',' :: serRec rest

/-- Serialize a record sequence, each record terminated by a newline, as
`to_csv` does. -/
def serCsv : List (List (List Char)) → List Char
  | [] => []
  | r :: rest => serRec r ++ '\n' :: serCsv rest

/-- The CSV export of line 180: `results_df.to_csv(index=False)` — header
line then one line per row, over the full column set. -/
def toCsv (rows : List ClassifiedRow) : String :=
  String.mk (serCsv ((csvHeader :: rows.map rowCells).map fun cs => cs.map String.toList))

/-- Read one quoted field body codepoint by codepoint; the flag records
that the previous character was a quote (a doubled quote is a literal
quote, a lone quote closes the field). -/
def parseQ : Bool → List Char → List Char × List Char
  | _, [] => ([], [])
  | false, c :: rest =>
    if c == '"' then parseQ true rest
    else
      let p := parseQ false rest
      (c :: p.1, p.2)
  | true, c :: rest =>
    if c == '"' then
      let p := parseQ false rest
      ('"' :: p.1, p.2)
    else ([], c :: rest)

/-- Read one quoted field body, starting right after the opening quote. -/
def parseQuoted (s : List Char) : List Char × List Char := parseQ false s

/-- Read one unquoted field: everything up to the next comma or newline. -/
def parseBare : List Char → List Char × List Char
  | [] => ([], [])
  | c :: rest =>
    if c == ',' || c == '\n' then ([], c :: rest)
    else
      let p := parseBare rest
      (c :: p.1, p.2)

/-- Read one field, choosing quoted or bare form by the first character. -/
def parseCell : List Char → List Char × List Char
  | [] => ([], [])
  | c :: rest => if c == '"' then parseQuoted rest else parseBare (c :: rest)

/-- Read one record (fuelled by the maximal field count): fields separated
by commas, ended by a newline or end of input. -/
def parseRec : Nat → List Char → List (List Char) × List Char
  | 0, s => ([], s)
  | Nat.succ fuel, s =>
    let p := parseCell s
    match p.2 with
    | [] => ([p.1], [])
    | c :: t =>
      if c == ',' then
        let q := parseRec fuel t
        (p.1 :: q.1, q.2)
      else if c == '\n' then ([p.1], t)
      else ([p.1], [])

/-- Read a record sequence (fuelled by the maximal record count). -/
def parseRecs : Nat → List Char → List (List (List Char))
  | 0, _ => []
  | Nat.succ fuel, s =>
    if s.isEmpty then []
    else
      let p := parseRec (s.length + 1) s
      p.1 :: parseRecs fuel p.2

/-- Re-parse a delimited text export into its records' raw cell values. -/
def parseCsv (s : String) : List (List String) :=
  (parseRecs (s.toList.length + 1) s.toList).map fun r => r.map String.mk

/-- One terminal outcome of pressing the search button, as the script's
control flow distinguishes them. -/
inductive Outcome : Type where
  | emptyQueryWarn : Outcome
  | transportError : Outcome
  | silentStop : Outcome
  | attrCrash : String → Outcome
  | reCrash : String → Outcome
  | noResults : Outcome
  | noFilterMatch : Bool → Outcome
  | success : List ClassifiedRow → Bool → Outcome
deriving DecidableEq

/-- Python truthiness of the decoded JSON dict at `if api_data:`: an empty
dict is falsy. -/
def dictTruthy (d : ApiData) : Bool :=
  (match d.matchesKey with
   | .absent => false
   | _ => true) || d.otherKeys

/-- The `submitted` handler (lines 126-181): empty-query guard (Python
string truthiness, so only the exactly-empty string stops early), then the
single `zoomeye_search` network call (`net = none` models a transport
failure, already reported by `st.error` inside `zoomeye_search`), then the
`if api_data:` truthiness gate, parsing, classification, styling, the
filter block (an uncaught `re.error` from an invalid product pattern
aborts the script run) and the final emptiness check.  The first component
records whether the network call was reached. -/
def run_search (reC : ReCompile) (query : String) (net : Option ApiData)
    (fi : FilterInput) : Bool × Outcome :=
  if query = "" then (false, .emptyQueryWarn)
  else
    (true,
      match net with
      | none => .transportError
      | some d =>
        if dictTruthy d then
          match parse_zoomeye_data d with
          | .error e => .attrCrash e
          | .ok [] => .noResults
          | .ok (r :: rs) =>
            let classified := (r :: rs).map fun row =>
              ClassifiedRow.mk row (classify_device (toPyRow row))
            let fr := applyFilters reC fi classified
            match fr.1 with
            | .error e => .reCrash e
            | .ok frows =>
              if frows.isEmpty then .noFilterMatch fr.2
              else .success frows fr.2
        else .silentStop)

/-! ### Shared list lemmas for the filter engine -/

/-- Two chained filters are one filter by the conjunction. -/
theorem filterComp {α : Type} (p q : α → Bool) (l : List α) :
    (l.filter p).filter q = l.filter fun a => p a && q a := by
  induction l with
  | nil => rfl
  | cons a t ih =>
    cases hp : p a <;> cases hq : q a <;> simp [List.filter_cons, hp, hq, ih]

/-- Filtering by pointwise-equal predicates gives the same rows. -/
theorem filterExt {α : Type} (p q : α → Bool) (l : List α) (h : ∀ a, p a = q a) :
    l.filter p = l.filter q := by
  induction l with
  | nil => rfl
  | cons a t ih => cases hp : p a <;> rw [List.filter_cons, List.filter_cons, ← h, hp] <;> simp [ih]

/-- Filtering by an everywhere-true predicate is the identity. -/
theorem filterAllTrue {α : Type} (p : α → Bool) (l : List α) (h : ∀ a, p a = true) :
    l.filter p = l := by
  induction l with
  | nil => rfl
  | cons a t ih => simp [List.filter_cons, h, ih]

/-- A truthiness-guarded filter stage equals an unconditional filter whose
predicate is true when the criterion is inactive. -/
theorem stageIf (s : String) (p : ClassifiedRow → Bool) (l : List ClassifiedRow) :
    (if s ≠ "" then l.filter p else l) = l.filter fun r => s == "" || p r := by
  by_cases h : s = ""
  · rw [if_neg (by simp [h])]
    exact (filterAllTrue _ l fun a => by simp [h]).symm
  · rw [if_pos h]
    exact filterExt _ _ l fun a => by simp [h]

/-- The port stage (rows component) equals an unconditional filter whose
predicate is also true when the port text failed to parse. -/
theorem stagePort (s : String) (l : List ClassifiedRow) :
    (if s ≠ "" then
       match parsePortList s with
       | some ports => (l.filter (portMatch ports), false)
       | none => (l, true)
     else (l, false)).1
    = l.filter fun r => s == ""
        || (match parsePortList s with
            | some ports => portMatch ports r
            | none => true) := by
  by_cases h : s = ""
  · rw [if_neg (by simp [h])]
    exact (filterAllTrue _ l fun a => by simp [h]).symm
  · rw [if_pos h]
    rcases hp : parsePortList s with _ | ports
    · exact (filterAllTrue _ l fun a => by simp [h, hp]).symm
    · exact filterExt _ _ l fun a => by simp [h, hp]

/-- The warning flag of the filter block depends only on the port text. -/
theorem applyFilters_snd (reC : ReCompile) (fi : FilterInput) (rows : List ClassifiedRow) :
    (applyFilters reC fi rows).2 = portWarn fi := by
  unfold applyFilters portWarn
  by_cases hp : fi.port_filter = ""
  · simp [hp]
  · rcases hpp : parsePortList fi.port_filter with _ | ports <;> simp [hp, hpp]

/-- When the product pattern is inactive or compiles, the filter block's
rows are one filter by the conjunction of the active criteria. -/
theorem applyFilters_okFst (reC : ReCompile) (fi : FilterInput) (rows : List ClassifiedRow)
    (hok : fi.device_text_filter = "" ∨ ∃ f, reC fi.device_text_filter = Except.ok f) :
    (applyFilters reC fi rows).1 = .ok (rows.filter (combinedPred reC fi)) := by
  unfold applyFilters combinedPred
  by_cases ht : fi.device_text_filter = ""
  · simp only [ht, ne_eq, not_true_eq_false, if_false, reduceIte]
    simp only [stagePort]
    simp only [stageIf]
    simp only [filterComp]
    refine congrArg Except.ok (filterExt _ _ rows fun a => ?_)
    simp
  · rcases hok with h | ⟨f, hf⟩
    · exact absurd h ht
    · simp only [ht, ne_eq, not_false_eq_true, if_true, hf]
      simp only [stagePort]
      simp only [stageIf]
      simp only [filterComp]
      refine congrArg Except.ok (filterExt _ _ rows fun a => ?_)
      have hbe : (fi.device_text_filter == "") = false := beq_eq_false_iff_ne.mpr ht
      simp [hbe]

/-- An invalid product pattern aborts the filter block with its
`re.error`. -/
theorem applyFilters_errFst (reC : ReCompile) (fi : FilterInput) (rows : List ClassifiedRow)
    (e : String) (ht : fi.device_text_filter ≠ "") (he : reC fi.device_text_filter = .error e) :
    (applyFilters reC fi rows).1 = .error e := by
  unfold applyFilters
  simp [ht, he]

/-! ### Claims -/

/-- Claim C1 is false on the code: a row with port 8080 whose product text
contains no rule-1 and no rule-2 keyword is classified `Cámara IP`
(IPCamera), not `Servidor Web` (WebServer), because rule 1's port set
itself contains 8080.  Concrete input: product "foo", port 8080, empty
banner. -/
theorem spec_C1_cex :
    classify_device ⟨.pstr "foo", .pint 8080, .pstr ""⟩ = "Cámara IP"
    ∧ ("Cámara IP" : String) ≠ "Servidor Web"
    ∧ (["camera", "hikvision", "dahua", "nginx", "apache", "iis"].all
        fun kw => !(hasSub "foo" kw)) = true := by
  refine ⟨by decide, by decide, by decide⟩

/-- Claim C1 (amended): every row whose port is 8080 is classified
IPCamera (`Cámara IP`) — rule 1's port set includes 8080, so
camera-detection wins for that port regardless of the product text; in
particular a port-8080 row whose product contains "hikvision" is
IPCamera. -/
theorem spec_C1_amended (row : PyRow) (h : row.port = .pint 8080) :
    classify_device row = "Cámara IP" := by
  have hm : pyMemInt row.port [554, 8000, 8080] = true := by rw [h]; rfl
  unfold classify_device
  simp [hm]

/-- Claim C1 amended, witnessed at port 8080 with a non-matching product
text. -/
theorem spec_C1_amended_w :
    classify_device ⟨.pstr "openssh", .pint 8080, .pstr ""⟩ = "Cámara IP" :=
  spec_C1_amended ⟨.pstr "openssh", .pint 8080, .pstr ""⟩ rfl

/-- Claim C5: the source classifier evaluates exactly the spec's seven
rules in their stated order with first match winning — `classify_device`
agrees with the rule-list evaluator `specClassify` on every row (via the
label table), and it is deterministic: identical rows get identical
categories.  Totality is the type of `classify_device` itself. -/
theorem spec_C5 (row row2 : PyRow) (h : row = row2) :
    classify_device row = categoryLabel (specClassify row)
    ∧ classify_device row = classify_device row2 := by
  refine ⟨?_, by rw [h]⟩
  have e : classify_device row =
      (if ruleMatches .IPCamera row then categoryLabel .IPCamera
       else if ruleMatches .WebServer row then categoryLabel .WebServer
       else if ruleMatches .Database row then categoryLabel .Database
       else if ruleMatches .SSHHost row then categoryLabel .SSHHost
       else if ruleMatches .TelnetDevice row then categoryLabel .TelnetDevice
       else if ruleMatches .IoT row then categoryLabel .IoT
       else categoryLabel .Unknown) := rfl
  rw [e]
  have hU : ruleMatches .Unknown row = true := rfl
  cases h1 : ruleMatches .IPCamera row <;>
  cases h2 : ruleMatches .WebServer row <;>
  cases h3 : ruleMatches .Database row <;>
  cases h4 : ruleMatches .SSHHost row <;>
  cases h5 : ruleMatches .TelnetDevice row <;>
  cases h6 : ruleMatches .IoT row <;>
  simp [specClassify, specRules, List.find?, h1, h2, h3, h4, h5, h6, hU]

/-- Claim C5, witnessed on an nginx row. -/
theorem spec_C5_w :
    classify_device ⟨.pstr "nginx 1.18", .pint 80, .pstr ""⟩
      = categoryLabel (specClassify ⟨.pstr "nginx 1.18", .pint 80, .pstr ""⟩)
    ∧ classify_device ⟨.pstr "nginx 1.18", .pint 80, .pstr ""⟩
      = classify_device ⟨.pstr "nginx 1.18", .pint 80, .pstr ""⟩ :=
  spec_C5 ⟨.pstr "nginx 1.18", .pint 80, .pstr ""⟩ ⟨.pstr "nginx 1.18", .pint 80, .pstr ""⟩ rfl

/-- Claim C9: the color column is a function of the category label alone —
rows agreeing on `device_type` get identical colors — and the lookup table
is exactly the spec's: IPCamera→(255,0,0,160), WebServer→(0,0,255,160),
Database→(255,165,0,160), SSHHost→(0,200,0,160), IoT→(128,0,128,160), and
both TelnetDevice and Unknown fall to the catch-all (200,30,0,160). -/
theorem spec_C9 (r1 r2 : ClassifiedRow) (h : r1.device_type = r2.device_type) :
    port_color r1 = port_color r2
    ∧ (r1.device_type = "Cámara IP" → port_color r1 = [255, 0, 0, 160])
    ∧ (r1.device_type = "Servidor Web" → port_color r1 = [0, 0, 255, 160])
    ∧ (r1.device_type = "Base de Datos" → port_color r1 = [255, 165, 0, 160])
    ∧ (r1.device_type = "Servidor/Ordenador (SSH)" → port_color r1 = [0, 200, 0, 160])
    ∧ (r1.device_type = "IoT" → port_color r1 = [128, 0, 128, 160])
    ∧ (r1.device_type = "Dispositivo de red (Telnet)" → port_color r1 = [200, 30, 0, 160])
    ∧ (r1.device_type = "Desconocido" → port_color r1 = [200, 30, 0, 160]) := by
  refine ⟨by unfold port_color; rw [h], ?_, ?_, ?_, ?_, ?_, ?_, ?_⟩ <;>
    intro hd <;> unfold port_color <;> rw [hd] <;> rfl

/-- Claim C9, witnessed: two rows differing in every other field but
sharing the IoT label get the same color, and the label determines the
spec's table entry. -/
theorem spec_C9_w :
    port_color ⟨⟨some "1.1.1.1", some 1, none, none, none, none, none, "a", none⟩, "IoT"⟩
      = port_color ⟨⟨some "2.2.2.2", some 2, none, none, none, none, none, "b", none⟩, "IoT"⟩ :=
  (spec_C9 ⟨⟨some "1.1.1.1", some 1, none, none, none, none, none, "a", none⟩, "IoT"⟩
    ⟨⟨some "2.2.2.2", some 2, none, none, none, none, none, "b", none⟩, "IoT"⟩ rfl).1

/-- Claim C10 (implicit): classification is total over dynamically typed
product/banner cells — `str()` coercion is modelled by `pyToStr`, so a
`None` product becomes the text "none" after lower-casing, which contains
no classification keyword; hence a `None`-product row classifies exactly
like an empty-keyword product, and non-string cells coerce to their
decimal text.  Totality and determinism are the type of
`classify_device`. -/
theorem spec_C10 (port banner : PyObj) :
    classify_device ⟨.pnull, port, banner⟩ = classify_device ⟨.pstr "none", port, banner⟩
    ∧ lowerStr (pyToStr PyObj.pnull) = "none"
    ∧ (["camera", "hikvision", "dahua", "nginx", "apache", "iis", "mysql",
        "mariadb", "postgres", "mongodb", "iot", "smart", "home", "device"].all
        fun kw => !(hasSub "none" kw)) = true
    ∧ pyToStr (PyObj.pint 8080) = "8080" :=
  ⟨rfl, rfl, by decide, by decide⟩

/-- Claim C6 is false on the code: the product criterion of line 164 is
not a case-insensitive substring test — pandas compiles the filter text as
a regular expression.  Concretely, with product filter text "1.18" the
block keeps a row whose product "nginx 1x18" does not contain "1.18" as a
substring (the dot is a regex wildcard), and the invalid pattern "("
raises `re.error` instead of filtering at all.  `pyReModel` agrees with
Python's `re` on both patterns, checked by hand: searching "1.18" in
"nginx 1x18" under IGNORECASE matches, and compiling "(" raises. -/
theorem spec_C6_cex :
    (applyFilters pyReModel ⟨"", "", "1.18", ""⟩
        [⟨⟨some "1.1.1.1", some 80, none, some "ES", none, none, none,
          "nginx 1x18", none⟩, "Servidor Web"⟩]).1
      = .ok [⟨⟨some "1.1.1.1", some 80, none, some "ES", none, none, none,
          "nginx 1x18", none⟩, "Servidor Web"⟩]
    ∧ hasSub (lowerStr "nginx 1x18") (lowerStr "1.18") = false
    ∧ (applyFilters pyReModel ⟨"", "", "(", ""⟩
        [⟨⟨some "1.1.1.1", some 80, none, some "ES", none, none, none,
          "nginx 1x18", none⟩, "Servidor Web"⟩]).1
      = .error reErr := by
  refine ⟨rfl, by decide, rfl⟩

/-- Claim C6 (amended): filtering is conjunctive and order-independent,
with the product criterion read as what the code computes — a
case-insensitive regular-expression search over the product text, whose
invalid patterns raise `re.error` and abort the block.  For every compile
behaviour (hence for Python's real `re`): when the pattern is inactive or
compiles, the block is one filter by the logical AND of the active
criteria; an invalid active pattern propagates its `re.error`; all-absent
criteria leave the rows unchanged; adding a port criterion to a country
criterion yields a subset of the country criterion alone; and applying
port-then-country equals the combined country+port block. -/
theorem spec_C6_amended (reC : ReCompile) (rows : List ClassifiedRow) (fi : FilterInput)
    (c p : String) :
    ((fi.device_text_filter = "" ∨ ∃ f, reC fi.device_text_filter = Except.ok f) →
      applyFilters reC fi rows = (.ok (rows.filter (combinedPred reC fi)), portWarn fi))
    ∧ (∀ e, fi.device_text_filter ≠ "" → reC fi.device_text_filter = .error e →
      applyFilters reC fi rows = (.error e, portWarn fi))
    ∧ applyFilters reC ⟨"", "", "", ""⟩ rows = (.ok rows, false)
    ∧ (∀ r, r ∈ okRows (applyFilters reC ⟨c, p, "", ""⟩ rows).1 →
        r ∈ okRows (applyFilters reC ⟨c, "", "", ""⟩ rows).1)
    ∧ okRows (applyFilters reC ⟨c, p, "", ""⟩ rows).1
      = okRows (applyFilters reC ⟨c, "", "", ""⟩
          (okRows (applyFilters reC ⟨"", p, "", ""⟩ rows).1)).1 := by
  refine ⟨?_, ?_, ?_, ?_, ?_⟩
  · intro hok
    exact Prod.ext (applyFilters_okFst reC fi rows hok) (applyFilters_snd reC fi rows)
  · intro e ht he
    exact Prod.ext (applyFilters_errFst reC fi rows e ht he) (applyFilters_snd reC fi rows)
  · have h1 := applyFilters_okFst reC ⟨"", "", "", ""⟩ rows (Or.inl rfl)
    rw [filterAllTrue (combinedPred reC ⟨"", "", "", ""⟩) rows fun a => rfl] at h1
    exact Prod.ext h1 (applyFilters_snd reC ⟨"", "", "", ""⟩ rows)
  · intro r hr
    rw [applyFilters_okFst reC ⟨c, p, "", ""⟩ rows (Or.inl rfl)] at hr
    rw [applyFilters_okFst reC ⟨c, "", "", ""⟩ rows (Or.inl rfl)]
    simp only [okRows, List.mem_filter] at hr ⊢
    refine ⟨hr.1, ?_⟩
    have h2 := hr.2
    simp only [combinedPred] at h2 ⊢
    simp only [Bool.and_eq_true] at h2 ⊢
    exact ⟨⟨⟨h2.1.1.1, by rfl⟩, by rfl⟩, by rfl⟩
  · rw [applyFilters_okFst reC ⟨c, p, "", ""⟩ rows (Or.inl rfl),
      applyFilters_okFst reC ⟨"", p, "", ""⟩ rows (Or.inl rfl)]
    simp only [okRows]
    rw [applyFilters_okFst reC ⟨c, "", "", ""⟩ _ (Or.inl rfl)]
    simp only [okRows]
    rw [filterComp]
    refine filterExt _ _ rows fun a => ?_
    simp only [combinedPred]
    cases hA : (c == "" || countryMatch c a) <;>
      cases hB : (p == ""
        || (match parsePortList p with
            | some ports => portMatch ports a
            | none => true)) <;>
      simp [hA, hB]

/-- Claim C6 amended, witnessed at the concrete `re` fragment model: the
pattern "1.18" compiles and the block equals the conjunction filter; the
pattern "(" raises; the all-absent criteria are a no-op; a row passing
country "ES" also witnesses the subset membership; and port-then-country
equals the combined block. -/
theorem spec_C6_amended_w :
    applyFilters pyReModel ⟨"", "", "1.18", ""⟩
        [⟨⟨some "1.1.1.1", some 443, none, some "ES", none, none, none, "x", none⟩, "IoT"⟩]
      = (.ok ([⟨⟨some "1.1.1.1", some 443, none, some "ES", none, none, none, "x", none⟩,
          "IoT"⟩].filter (combinedPred pyReModel ⟨"", "", "1.18", ""⟩)),
         portWarn ⟨"", "", "1.18", ""⟩)
    ∧ applyFilters pyReModel ⟨"", "", "(", ""⟩
        [⟨⟨some "1.1.1.1", some 443, none, some "ES", none, none, none, "x", none⟩, "IoT"⟩]
      = (.error reErr, portWarn ⟨"", "", "(", ""⟩)
    ∧ applyFilters pyReModel ⟨"", "", "", ""⟩
        [⟨⟨some "1.1.1.1", some 443, none, some "ES", none, none, none, "x", none⟩, "IoT"⟩]
      = (.ok [⟨⟨some "1.1.1.1", some 443, none, some "ES", none, none, none, "x", none⟩, "IoT"⟩],
         false)
    ∧ (⟨⟨some "1.1.1.1", some 443, none, some "ES", none, none, none, "x", none⟩, "IoT"⟩
        ∈ okRows (applyFilters pyReModel ⟨"ES", "", "", ""⟩
          [⟨⟨some "1.1.1.1", some 443, none, some "ES", none, none, none, "x", none⟩, "IoT"⟩]).1)
    ∧ okRows (applyFilters pyReModel ⟨"ES", "443", "", ""⟩
        [⟨⟨some "1.1.1.1", some 443, none, some "ES", none, none, none, "x", none⟩, "IoT"⟩]).1
      = okRows (applyFilters pyReModel ⟨"ES", "", "", ""⟩
          (okRows (applyFilters pyReModel ⟨"", "443", "", ""⟩
            [⟨⟨some "1.1.1.1", some 443, none, some "ES", none, none, none, "x", none⟩,
              "IoT"⟩]).1)).1 :=
  ⟨(spec_C6_amended pyReModel
      [⟨⟨some "1.1.1.1", some 443, none, some "ES", none, none, none, "x", none⟩, "IoT"⟩]
      ⟨"", "", "1.18", ""⟩ "ES" "443").1 (Or.inr ⟨_, rfl⟩),
   (spec_C6_amended pyReModel
      [⟨⟨some "1.1.1.1", some 443, none, some "ES", none, none, none, "x", none⟩, "IoT"⟩]
      ⟨"", "", "(", ""⟩ "ES" "443").2.1 reErr (by decide) rfl,
   (spec_C6_amended pyReModel
      [⟨⟨some "1.1.1.1", some 443, none, some "ES", none, none, none, "x", none⟩, "IoT"⟩]
      ⟨"", "", "", ""⟩ "ES" "443").2.2.1,
   (spec_C6_amended pyReModel
      [⟨⟨some "1.1.1.1", some 443, none, some "ES", none, none, none, "x", none⟩, "IoT"⟩]
      ⟨"", "", "", ""⟩ "ES" "443").2.2.2.1
     ⟨⟨some "1.1.1.1", some 443, none, some "ES", none, none, none, "x", none⟩, "IoT"⟩
     (by decide),
   (spec_C6_amended pyReModel
      [⟨⟨some "1.1.1.1", some 443, none, some "ES", none, none, none, "x", none⟩, "IoT"⟩]
      ⟨"", "", "", ""⟩ "ES" "443").2.2.2.2⟩

/-- Claim C7: when the port-filter text fails integer parsing, the warning
fires, the port criterion is skipped (the rows are exactly those of the
same filter input with the port text cleared), and the remaining filters
are still applied — for every product-pattern compile behaviour, raising
or not. -/
theorem spec_C7 (reC : ReCompile) (rows : List ClassifiedRow) (fi : FilterInput)
    (h1 : fi.port_filter ≠ "") (h2 : parsePortList fi.port_filter = none) :
    (applyFilters reC fi rows).2 = true
    ∧ (applyFilters reC fi rows).1
      = (applyFilters reC
          ⟨fi.country_filter, "", fi.device_text_filter, fi.device_type_filter⟩ rows).1 := by
  constructor
  · rw [applyFilters_snd]
    unfold portWarn
    simp [h1, h2]
  · by_cases ht : fi.device_text_filter = ""
    · rw [applyFilters_okFst reC fi rows (Or.inl ht),
        applyFilters_okFst reC
          ⟨fi.country_filter, "", fi.device_text_filter, fi.device_type_filter⟩ rows (Or.inl ht)]
      refine congrArg Except.ok (filterExt _ _ rows fun a => ?_)
      simp [combinedPred, h2]
    · rcases hre : reC fi.device_text_filter with e | f
      · rw [applyFilters_errFst reC fi rows e ht hre,
          applyFilters_errFst reC
            ⟨fi.country_filter, "", fi.device_text_filter, fi.device_type_filter⟩ rows e ht hre]
      · rw [applyFilters_okFst reC fi rows (Or.inr ⟨f, hre⟩),
          applyFilters_okFst reC
            ⟨fi.country_filter, "", fi.device_text_filter, fi.device_type_filter⟩ rows
            (Or.inr ⟨f, hre⟩)]
        refine congrArg Except.ok (filterExt _ _ rows fun a => ?_)
        simp [combinedPred, h2, hre]

/-- Claim C7, witnessed with the spec's example text "abc" on a one-row
set that the remaining country filter still removes. -/
theorem spec_C7_w :
    ("abc" : String) ≠ ""
    ∧ parsePortList "abc" = none
    ∧ (applyFilters pyReModel ⟨"US", "abc", "", ""⟩
        [⟨⟨some "1.1.1.1", some 443, none, some "ES", none, none, none, "x", none⟩, "IoT"⟩]).2 = true
    ∧ (applyFilters pyReModel ⟨"US", "abc", "", ""⟩
        [⟨⟨some "1.1.1.1", some 443, none, some "ES", none, none, none, "x", none⟩, "IoT"⟩]).1
      = (applyFilters pyReModel ⟨"US", "", "", ""⟩
        [⟨⟨some "1.1.1.1", some 443, none, some "ES", none, none, none, "x", none⟩, "IoT"⟩]).1 :=
  ⟨by decide, by decide,
    (spec_C7 pyReModel
      [⟨⟨some "1.1.1.1", some 443, none, some "ES", none, none, none, "x", none⟩, "IoT"⟩]
      ⟨"US", "abc", "", ""⟩ (by decide) (by decide)).1,
    (spec_C7 pyReModel
      [⟨⟨some "1.1.1.1", some 443, none, some "ES", none, none, none, "x", none⟩, "IoT"⟩]
      ⟨"US", "abc", "", ""⟩ (by decide) (by decide)).2⟩

/-- No key of the field is present-with-`None`. -/
def fieldNN {α : Type} : Field α → Bool
  | .null => false
  | _ => true

/-- No null anywhere along one place object's chain. -/
def placeNN : Field PlaceObj → Bool
  | .null => false
  | .absent => true
  | .val p =>
    match p.names with
    | .null => false
    | .absent => true
    | .val ns => fieldNN ns.en

/-- No null anywhere inside the geoinfo chain. -/
def geoNN : Field GeoObj → Bool
  | .null => false
  | .absent => true
  | .val g => placeNN g.country && placeNN g.city && fieldNN g.latitude && fieldNN g.longitude

/-- Every key of the raw record is either absent or a proper value (no
JSON `null` anywhere the normalizer dereferences). -/
def noNulls (r : RawRecord) : Bool :=
  fieldNN r.ip && fieldNN r.port && fieldNN r.protocol && geoNN r.geoinfo
    && fieldNN r.data && fieldNN r.product && fieldNN r.version

/-- The country/city name a null-free place chain produces. -/
def placeNameOk : Field PlaceObj → Option String
  | .val pl =>
    (match pl.names with
     | .val ns => getOr ns.en "N/A"
     | _ => some "N/A")
  | _ => some "N/A"

/-- The geo quadruple a null-free geoinfo chain produces. -/
def geoFieldsOk (g : Field GeoObj) :
    Option String × Option String × Option Int × Option Int :=
  match g with
  | .val geo =>
    (placeNameOk geo.country, placeNameOk geo.city,
     geoCoordOf geo GeoObj.latitude, geoCoordOf geo GeoObj.longitude)
  | _ => (some "N/A", some "N/A", none, none)

/-- The row a null-free record normalizes to. -/
def normOk (r : RawRecord) : DeviceRow :=
  let gf := geoFieldsOk r.geoinfo
  let product0 := pyStrip (pyFStr (getOr r.product "") ++ " " ++ pyFStr (getOr r.version ""))
  { ip_str := getOr r.ip "N/A"
    port := getOr r.port 0
    transport := getOr r.protocol "N/A"
    country := gf.1
    city := gf.2.1
    lat := gf.2.2.1
    lon := gf.2.2.2
    product := if product0 ≠ "" then product0 else "N/A"
    data := getOr r.data "N/A" }

/-- On a null-free place chain, the fallible name lookup succeeds with its
total counterpart. -/
theorem placeName_ok (f : Field PlaceObj) (h : placeNN f = true) :
    placeName f = .ok (placeNameOk f) := by
  cases f with
  | null => exact absurd h (by simp [placeNN])
  | absent => rfl
  | val pl =>
    cases hn : pl.names with
    | null => exact absurd h (by simp [placeNN, hn])
    | absent => simp [placeName, placeNameOk, hn]
    | val ns => simp [placeName, placeNameOk, hn]

/-- On a null-free geoinfo chain, the fallible geo extraction succeeds
with its total counterpart. -/
theorem geoFields_ok (g : Field GeoObj) (h : geoNN g = true) :
    geoFields g = .ok (geoFieldsOk g) := by
  cases g with
  | null => exact absurd h (by simp [geoNN])
  | absent => rfl
  | val geo =>
    simp only [geoNN, Bool.and_eq_true] at h
    rw [geoFields, placeName_ok geo.country h.1.1.1, placeName_ok geo.city h.1.1.2]
    rfl

/-- On a null-free record, `normalize` succeeds with `normOk`. -/
theorem normalize_ok (r : RawRecord) (h : noNulls r = true) :
    normalize r = .ok (normOk r) := by
  simp only [noNulls, Bool.and_eq_true] at h
  rw [normalize, geoFields_ok r.geoinfo h.1.1.1.2]
  rfl

/-- Claim C2 is false on the code: a raw record whose `geoinfo` key is
present but null makes the normalizer raise `AttributeError`
(`None.get('country', {})`), instead of degrading to defaults.  Concrete
input: every key absent except `geoinfo: null`. -/
theorem spec_C2_cex :
    normalize ⟨.absent, .absent, .absent, .null, .absent, .absent, .absent⟩
      = Except.error attrErr := rfl

/-- Claim C2 (amended): for every raw record in which any subset of the
optional keys is absent (and no present key is null), `normalize` never
fails and returns the documented defaults — ip "N/A", port 0, transport
"N/A", country/city "N/A" and no coordinates when geoinfo is absent,
banner "N/A", and product the trimmed space-joined concatenation of
product and version with "N/A" substituted when the trimmed text is
empty. -/
theorem spec_C2_amended (r : RawRecord) (h : noNulls r = true) :
    normalize r = .ok (normOk r)
    ∧ (r.ip = .absent → (normOk r).ip_str = some "N/A")
    ∧ (r.port = .absent → (normOk r).port = some 0)
    ∧ (r.protocol = .absent → (normOk r).transport = some "N/A")
    ∧ (r.geoinfo = .absent → (normOk r).country = some "N/A" ∧ (normOk r).city = some "N/A"
        ∧ (normOk r).lat = none ∧ (normOk r).lon = none)
    ∧ (r.data = .absent → (normOk r).data = some "N/A")
    ∧ (normOk r).product =
        (let t := pyStrip (pyFStr (getOr r.product "") ++ " " ++ pyFStr (getOr r.version ""))
         if t ≠ "" then t else "N/A") := by
  refine ⟨normalize_ok r h, ?_, ?_, ?_, ?_, ?_, rfl⟩
  · intro ha; simp [normOk, ha, getOr]
  · intro ha; simp [normOk, ha, getOr]
  · intro ha; simp [normOk, ha, getOr]
  · intro ha; simp [normOk, ha, geoFieldsOk]
  · intro ha; simp [normOk, ha, getOr]

/-- Claim C2 amended, witnessed on the all-absent record. -/
theorem spec_C2_amended_w :
    normalize ⟨.absent, .absent, .absent, .absent, .absent, .absent, .absent⟩
      = .ok (normOk ⟨.absent, .absent, .absent, .absent, .absent, .absent, .absent⟩)
    ∧ (normOk ⟨.absent, .absent, .absent, .absent, .absent, .absent, .absent⟩).ip_str
      = some "N/A" :=
  ⟨(spec_C2_amended ⟨.absent, .absent, .absent, .absent, .absent, .absent, .absent⟩ rfl).1,
   (spec_C2_amended ⟨.absent, .absent, .absent, .absent, .absent, .absent, .absent⟩ rfl).2.1 rfl⟩

/-- The query consists only of whitespace characters (so the spec's
"empty or whitespace-only" class is `isBlank = true`). -/
def isBlank (s : String) : Bool := s.toList.all isPySpace

/-- Claim C3 is false on the code: the guard is Python string truthiness
(`if not query:`), which catches only the exactly-empty string — a
whitespace-only query such as a single space passes the guard and the
network call is reached (first component `true`), with no validation
message.  Concrete input: query " ". -/
theorem spec_C3_cex :
    isBlank " " = true
    ∧ (" " : String) ≠ ""
    ∧ (run_search pyReModel " " none ⟨"", "", "", ""⟩).1 = true
    ∧ run_search pyReModel " " none ⟨"", "", "", ""⟩ ≠ (false, .emptyQueryWarn) := by
  refine ⟨by decide, by decide, by decide, by decide⟩

/-- Claim C3 (amended): only the exactly-empty query string is rejected —
for it, `run_search` reports the validation warning and stops before the
network call (first component `false`); any non-empty string, including
whitespace-only ones, proceeds to the network call. -/
theorem spec_C3_amended (reC : ReCompile) (net : Option ApiData) (fi : FilterInput)
    (q : String) :
    run_search reC "" net fi = (false, .emptyQueryWarn)
    ∧ (q ≠ "" → (run_search reC q net fi).1 = true) := by
  constructor
  · rfl
  · intro hq
    unfold run_search
    rw [if_neg hq]

/-- Claim C3 amended, witnessed: the empty query stops before the network
call; the whitespace query does not. -/
theorem spec_C3_amended_w :
    run_search pyReModel "" none ⟨"", "", "", ""⟩ = (false, .emptyQueryWarn)
    ∧ (run_search pyReModel " " none ⟨"", "", "", ""⟩).1 = true :=
  ⟨(spec_C3_amended pyReModel none ⟨"", "", "", ""⟩ " ").1,
   (spec_C3_amended pyReModel none ⟨"", "", "", ""⟩ " ").2 (by decide)⟩

/-- Claim C8 is false on the code: a successful response that is the empty
JSON object (`matches` absent, no other keys) is falsy at `if api_data:`,
so the script renders nothing at all — no distinct "no results" flag —
even though its matches sequence is absent.  A transport failure instead
yields the `transportError` outcome, and a `matches: []` response the
flagged `noResults` outcome, so the three outcomes differ pairwise. -/
theorem spec_C8_cex :
    run_search pyReModel "port:80" (some ⟨.absent, false⟩) ⟨"", "", "", ""⟩ = (true, .silentStop)
    ∧ Outcome.silentStop ≠ Outcome.noResults
    ∧ run_search pyReModel "port:80" (some ⟨.val [], false⟩) ⟨"", "", "", ""⟩ = (true, .noResults)
    ∧ run_search pyReModel "port:80" none ⟨"", "", "", ""⟩ = (true, .transportError) := by
  refine ⟨by decide, by decide, by decide, by decide⟩

/-- Claim C8 (amended): for every successful response whose `matches` is
an empty list, or is null, or is absent while the response object is
otherwise non-empty (so the dict is truthy), `run_search` yields the
distinct zero-row `noResults` outcome, which differs from the transport
failure outcome; only the wholly-empty response object degrades to the
silent stop. -/
theorem spec_C8_amended (reC : ReCompile) (q : String) (d : ApiData) (fi : FilterInput)
    (hq : q ≠ "")
    (hm : d.matchesKey = .val [] ∨ d.matchesKey = .null
      ∨ (d.matchesKey = .absent ∧ d.otherKeys = true)) :
    run_search reC q (some d) fi = (true, .noResults)
    ∧ Outcome.noResults ≠ Outcome.transportError := by
  refine ⟨?_, by decide⟩
  unfold run_search
  rw [if_neg hq]
  rcases hm with hm | hm | ⟨hm, ho⟩
  · simp [dictTruthy, hm, parse_zoomeye_data]
  · simp [dictTruthy, hm, parse_zoomeye_data]
  · simp [dictTruthy, hm, ho, parse_zoomeye_data]

/-- Claim C8 amended, witnessed on a `matches: []` response. -/
theorem spec_C8_amended_w :
    run_search pyReModel "port:80" (some ⟨.val [], true⟩) ⟨"", "", "", ""⟩ = (true, .noResults)
    ∧ Outcome.noResults ≠ Outcome.transportError :=
  spec_C8_amended pyReModel "port:80" ⟨.val [], true⟩ ⟨"", "", "", ""⟩ (by decide) (Or.inl rfl)

/-! ### CSV round-trip lemmas -/

/-- The remainder does not start with a quote character. -/
def headNQ : List Char → Bool
  | [] => true
  | c :: _ => !(c == '"')

/-- The remainder is empty or starts with a field/record separator. -/
def headSep : List Char → Bool
  | [] => true
  | c :: _ => c == ',' || c == '\n'

theorem headSep_NQ (l : List Char) (h : headSep l = true) : headNQ l = true := by
  cases l with
  | nil => rfl
  | cons c t =>
    simp only [headSep, Bool.or_eq_true, beq_iff_eq] at h
    rcases h with h | h <;> simp [headNQ, h]

/-- Reading back an escaped quoted body recovers the cell and stops right
at the remainder. -/
theorem parseQuoted_esc (cell rest : List Char) (h : headNQ rest = true) :
    parseQuoted (escBody cell ++ '"' :: rest) = (cell, rest) := by
  unfold parseQuoted
  induction cell with
  | nil =>
    cases rest with
    | nil => rfl
    | cons c2 t =>
      have h2 : (c2 == '"') = false := by
        cases hb : (c2 == '"')
        · rfl
        · simp [headNQ, hb] at h
      simp [escBody, parseQ, h2]
  | cons a as ih =>
    by_cases ha : a = '"'
    · subst ha
      simp [escBody, parseQ, List.append_eq, ih]
    · simp [escBody, parseQ, List.append_eq, ha, ih]

/-- Reading back a separator-free bare cell recovers it and stops at the
remainder. -/
theorem parseBare_cell (cell rest : List Char)
    (hc : ∀ c ∈ cell, (c == ',') = false ∧ (c == '\n') = false)
    (hr : headSep rest = true) :
    parseBare (cell ++ rest) = (cell, rest) := by
  induction cell with
  | nil =>
    cases rest with
    | nil => rfl
    | cons c t =>
      simp only [headSep] at hr
      simp [parseBare, hr]
  | cons a as ih =>
    have ha := hc a (List.mem_cons_self a as)
    simp [List.cons_append, parseBare, List.append_eq, ha.1, ha.2,
      ih fun c hcm => hc c (List.mem_cons_of_mem a hcm)]

/-- Reading back any minimally-quoted field recovers it and stops at the
remainder. -/
theorem parseCell_ser (cell rest : List Char) (hr : headSep rest = true) :
    parseCell (escField cell ++ rest) = (cell, rest) := by
  by_cases hq : needsQuote cell = true
  · simp only [escField, hq, if_true, List.cons_append, List.append_assoc, List.cons_append]
    simp only [parseCell, beq_self_eq_true, if_true]
    exact parseQuoted_esc cell rest (headSep_NQ rest hr)
  · have hq' : needsQuote cell = false := by simpa using hq
    have hchars : ∀ c ∈ cell, ((c == ',' || c == '"' || c == '\n' || c == '\r') = false) := by
      simpa [needsQuote, List.any_eq_false] using hq'
    rw [escField, if_neg (by simp [hq'])]
    cases cell with
    | nil =>
      cases rest with
      | nil => rfl
      | cons c t =>
        simp only [headSep, Bool.or_eq_true, beq_iff_eq] at hr
        rcases hr with h | h <;> simp [parseCell, parseBare, h]
    | cons a as =>
      have ha := hchars a (List.mem_cons_self a as)
      simp only [Bool.or_eq_false_iff] at ha
      simp only [List.cons_append, parseCell, ha.1.1.2, Bool.false_eq_true, if_false]
      refine parseBare_cell (a :: as) rest (fun c hcm => ?_) hr
      have := hchars c hcm
      simp only [Bool.or_eq_false_iff] at this
      exact ⟨this.1.1.1, this.1.2⟩

/-- A serialized record is at least one character per field beyond the
first. -/
theorem serRec_len (cells : List (List Char)) :
    cells.length ≤ (serRec cells).length + 1 := by
  induction cells with
  | nil => simp [serRec]
  | cons c cs ih =>
    cases cs with
    | nil => simp [serRec]
    | cons c2 cs2 =>
      rw [serRec]
      · simp only [List.length_append, List.length_cons] at ih ⊢
        omega
      · exact fun h => List.noConfusion h

/-- Reading back a serialized record (followed by its newline) recovers
the cells and stops right after the newline, for any sufficient fuel. -/
theorem parseRec_ser (cells : List (List Char)) (fuel : Nat) (rest : List Char)
    (hne : cells ≠ []) (hfuel : cells.length ≤ fuel) :
    parseRec fuel (serRec cells ++ '\n' :: rest) = (cells, rest) := by
  induction cells generalizing fuel with
  | nil => exact absurd rfl hne
  | cons c cs ih =>
    cases fuel with
    | zero => simp at hfuel
    | succ f =>
      cases cs with
      | nil =>
        rw [serRec, parseRec]
        simp [parseCell_ser c ('\n' :: rest) (by rfl)]
      | cons c2 cs2 =>
        have hih := ih f (List.cons_ne_nil c2 cs2)
          (by simp only [List.length_cons] at hfuel ⊢; omega)
        rw [serRec, parseRec]
        · simp only [List.append_assoc, List.cons_append]
          simp [parseCell_ser c (',' :: (serRec (c2 :: cs2) ++ '\n' :: rest)) (by rfl), hih]
        · exact fun h => List.noConfusion h

/-- A serialized record sequence is at least one character per record. -/
theorem serCsv_len (recs : List (List (List Char))) :
    recs.length ≤ (serCsv recs).length := by
  induction recs with
  | nil => simp [serCsv]
  | cons r rs ih =>
    rw [serCsv]
    simp only [List.length_append, List.length_cons]
    omega

/-- Reading back a serialized record sequence recovers every record, for
any sufficient fuel. -/
theorem parseRecs_ser (recs : List (List (List Char))) (fuel : Nat)
    (hne : ∀ r ∈ recs, r ≠ []) (hfuel : recs.length ≤ fuel) :
    parseRecs fuel (serCsv recs) = recs := by
  induction recs generalizing fuel with
  | nil =>
    cases fuel with
    | zero => rfl
    | succ f => rfl
  | cons r rs ih =>
    cases fuel with
    | zero => simp at hfuel
    | succ f =>
      rw [serCsv, parseRecs]
      have hcons : ∃ c t, serRec r ++ '\n' :: serCsv rs = c :: t := by
        cases hs : serRec r with
        | nil => exact ⟨'\n', serCsv rs, rfl⟩
        | cons a b => exact ⟨a, b ++ '\n' :: serCsv rs, rfl⟩
      obtain ⟨c, t, hct⟩ := hcons
      rw [hct]
      simp only [List.isEmpty_cons, if_false, Bool.false_eq_true]
      rw [← hct]
      rw [parseRec_ser r _ (serCsv rs) (hne r (List.mem_cons_self r rs)) ?len]
      case len =>
        have h1 := serRec_len r
        simp only [List.length_append, List.length_cons]
        omega
      simp only []
      rw [ih f (fun q hq => hne q (List.mem_cons_of_mem r hq))
        (by simp only [List.length_cons] at hfuel ⊢; omega)]

/-- Claim C4 is false on the code: the export of line 180 serializes the
full DataFrame, so the header names both the `data` (banner) and `color`
columns, and a concrete row's banner text appears verbatim in the exported
text — banner and color are excluded from the table view (line 177), not
from the CSV export. -/
theorem spec_C4_cex :
    "data" ∈ csvHeader
    ∧ "color" ∈ csvHeader
    ∧ hasSub
        (toCsv [⟨⟨some "1.2.3.4", some 8080, some "tcp", some "ES", some "Madrid", none, none,
          "prod", some "SECRETBANNER"⟩, "Cámara IP"⟩]) "SECRETBANNER" = true := by
  refine ⟨by decide, by decide, by decide⟩

/-- Claim C4 (amended): the export contains one line per device over the
full column list (all DeviceRow fields, banner (`data`) and `color`
included), and re-parsing the exported text recovers exactly the header
plus each row's cells — in particular the ip, port, country, city,
product and category cell values of every exported row (optional fields
that hold Python `None` serialize as the empty cell). -/
theorem spec_C4_amended (rows : List ClassifiedRow) :
    parseCsv (toCsv rows) = csvHeader :: rows.map rowCells
    ∧ ∀ r ∈ rows,
        (rowCells r).get? 0 = some (optCell r.base.ip_str)
        ∧ (rowCells r).get? 1 = some (optIntCell r.base.port)
        ∧ (rowCells r).get? 3 = some (optCell r.base.country)
        ∧ (rowCells r).get? 4 = some (optCell r.base.city)
        ∧ (rowCells r).get? 7 = some r.base.product
        ∧ (rowCells r).get? 9 = some r.device_type := by
  constructor
  · unfold parseCsv toCsv
    have hmk : ∀ l : List Char, (String.mk l).toList = l := fun l => rfl
    rw [hmk]
    set recs := (csvHeader :: rows.map rowCells).map (fun cs => cs.map String.toList) with hrecs
    have hne : ∀ r ∈ recs, r ≠ [] := by
      intro r hr
      rw [hrecs] at hr
      rcases List.mem_map.mp hr with ⟨cs, hcs, hmap⟩
      rcases List.mem_cons.mp hcs with hcs | hcs
      · subst hcs hmap; simp [csvHeader]
      · rcases List.mem_map.mp hcs with ⟨row, _, hrow⟩
        subst hrow hmap
        simp [rowCells]
    have hlen : recs.length ≤ (serCsv recs).length + 1 := by
      have := serCsv_len recs
      omega
    rw [parseRecs_ser recs _ hne hlen, hrecs, List.map_map]
    have hid : ((fun r : List (List Char) => r.map String.mk)
        ∘ fun cs : List String => cs.map String.toList) = id := by
      funext cs
      show (cs.map String.toList).map String.mk = cs
      rw [List.map_map]
      have hmt : (String.mk ∘ String.toList) = id := funext fun s => rfl
      rw [hmt, List.map_id]
    rw [hid, List.map_id]
  · intro r _
    exact ⟨rfl, rfl, rfl, rfl, rfl, rfl⟩

/-- Claim C4 amended, witnessed on a one-row export whose banner holds a
comma and a quote. -/
theorem spec_C4_amended_w :
    parseCsv (toCsv [⟨⟨some "1.2.3.4", some 80, some "tcp", some "ES", none, none, none,
        "nginx 1.18", some "he,llo \"x\""⟩, "Servidor Web"⟩])
      = csvHeader :: [⟨⟨some "1.2.3.4", some 80, some "tcp", some "ES", none, none, none,
        "nginx 1.18", some "he,llo \"x\""⟩, "Servidor Web"⟩].map rowCells :=
  (spec_C4_amended [⟨⟨some "1.2.3.4", some 80, some "tcp", some "ES", none, none, none,
    "nginx 1.18", some "he,llo \"x\""⟩, "Servidor Web"⟩]).1

/-- Claim C10, witnessed at a null product with an unclassified port. -/
theorem spec_C10_w :
    classify_device ⟨.pnull, .pint 12345, .pnull⟩
      = classify_device ⟨.pstr "none", .pint 12345, .pnull⟩ :=
  (spec_C10 (.pint 12345) .pnull).1

end NetHunter
